import Mathlib

/-!
Verification development for the STET payment-initiation browser
(`stet_pis_browser.py`).  The Python browser class is embedded shallowly:

* class-level configuration constants (`ClassVar`s) become a `BrowserConfig`
  record, with `Stet140Config` holding the base-class values;
* the persisted `PaymentBrowserState` becomes a record of the session fields;
* datetimes are `Nat` (seconds), timedeltas `Nat`;
* raised exceptions become an explicit `PaymentException` sum returned in an
  `Except`;
* HTTP side effects are made explicit: a `Browser` record threads the session
  state, the `new_token` flag, the number of HTTP requests issued and the
  number of status-data acquisitions, while an `Env` record carries the
  caller-supplied configuration values and the bank's responses (an oracle
  `bank : Nat → PaymentStatusData` indexed by acquisition order).
-/

namespace StetPIS

/-- Abstract validation error reasons, from `woob.capabilities.payment`
(`PaymentValidationErrorCode`), restricted to the members the browser uses. -/
inductive PaymentValidationErrorCode where
  | INVALID_PAYER
  | INVALID_BENEFICIARY
  | INVALID_DATE
  | CANCELLED
  | REGULATORY_REASON
  | EXPIRED
  | CONFIRMATION_REFUSED
  | NONE
  | OTHER
  deriving DecidableEq, Repr

/-- Abstract cancellation error reasons (`PaymentCancellationErrorCode`),
restricted to the members the browser uses. -/
inductive PaymentCancellationErrorCode where
  | OTHER
  | NOT_CANCELLABLE
  | ALREADY_CANCELLED
  | CONFIRMATION_REFUSED
  deriving DecidableEq, Repr

/-- Abstract cancellation reasons (`PaymentCancellationReason`). -/
inductive PaymentCancellationReason where
  | ORDERED_BY_PSU
  | DUPLICATE
  | FRAUDULENT
  | TECHNICAL
  deriving DecidableEq, Repr

/-- Modelled from the spec: the validation approaches of `ValidationData`
(section 3 of the spec: none / redirect / decoupled / embedded); the
enumeration itself lives in the repository's `utils` module, which is not in
the source tree.  The browser code only compares against `NONE` and
`REDIRECT`. -/
inductive ValidationApproach where
  | NONE
  | REDIRECT
  | DECOUPLED
  | EMBEDDED
  deriving DecidableEq, Repr

/-- The redirect flow variants (`RedirectFlow` in the `utils` module), as
used by the browser code. -/
inductive RedirectFlow where
  | SIMPLE
  | SIMPLE_WITHOUT_CONFIRMATION
  | SIMPLE_WITH_AUTH_FACTOR
  | OAUTH_AUTHORISATION_CODE
  | OAUTH_AUTHORISATION_CODE_WITHOUT_CONFIRMATION
  deriving DecidableEq, Repr

/-- The pre-step authentication kinds (`PreStepType` in the `utils` module);
the browser compares against `NONE` and defaults to `OAUTH_CLIENT`. -/
inductive PreStepType where
  | NONE
  | OAUTH_CLIENT
  deriving DecidableEq, Repr

/-- Raw status data for a payment, as returned by a payment page
(`PaymentStatusData` in the `utils` module): a raw status code and an
optional raw status reason code. -/
structure PaymentStatusData where
  status : String
  status_reason : Option String
  deriving DecidableEq, Repr

/-- Validation data extracted from a creation or cancellation response page:
the chosen authentication approach and an opaque nonce (the hyperlink map is
not modelled; redirect signals carry no URL here). -/
structure ValidationData where
  nonce : Option String
  approach : ValidationApproach
  deriving DecidableEq, Repr

/-- Modelled from the spec: the persisted Session State
(`PaymentBrowserState` in the repository's `state` module, which is not in
the source tree).  Section 3 of the spec lists its fields: OAuth token data,
payment nonce, validation approach, PKCE verifier, pending OAuth
authorisation code, the token-to-be-requested flag, PSU auth factor, the
confirmation flags, the creation parameters kept for cancellation, and the
first-failure data frozen separately for validation and cancellation. -/
structure PaymentBrowserState where
  oauth_token : Option String
  oauth_token_type : Option String
  oauth_token_expires_at : Option Nat
  oauth_refresh_token : Option String
  payment_nonce : Option String
  validation_approach : ValidationApproach
  pkce_verifier : Option String
  oauth_authorisation_code : Option String
  oauth_token_to_be_requested : Bool
  psu_auth_factor : Option String
  validation_confirmation_required : Bool
  validation_confirmed : Bool
  payment_creation_date : Option Nat
  payment_information_id : Option String
  payment_instruction_ids : Option (List String)
  first_failure_at : Option Nat
  first_failure_validation_data : Option (Option PaymentValidationErrorCode × Option String)
  first_failure_cancellation_data : Option (Option PaymentCancellationErrorCode × Option String)
  deriving DecidableEq, Repr

/-- The browser configuration: every class-level constant of
`Stet140PaymentBrowser` that the embedded operations read. -/
structure BrowserConfig where
  VALIDATION_ERROR_CODE_MAPPING : List (String × PaymentValidationErrorCode × String)
  CANCELLATION_REASON_MAPPING : List (PaymentCancellationReason × String)
  VALIDATION_MAY_HAVE_AUTOMATIC_CONFIRMATION : Bool
  VALIDATION_REDIRECT_FLOW : RedirectFlow
  CANCELLATION_REDIRECT_FLOW : RedirectFlow
  VALIDATION_CONFIRMATION_STATUS_REQUIRED : Bool
  UNSAFE_CONFIRMATIONS : Bool
  UNSAFE_URL_ERROR_DETECTION : Bool
  VALIDATION_FAILURE_CALLBACK_DETECTION_TIMEOUT : Option Nat
  CANCELLATION_FAILURE_CALLBACK_DETECTION_TIMEOUT : Option Nat
  CANCELLATION_REDIRECT_WITH_PKCE : Bool
  PRE_STEP_TYPE : PreStepType
  deriving DecidableEq, Repr

/-- The validation error code table of `Stet140PaymentBrowser`
(`VALIDATION_ERROR_CODE_MAPPING`), mapping raw STET status reason codes to
an abstract reason and a human message. -/
def VALIDATION_ERROR_CODE_MAPPING :
    List (String × PaymentValidationErrorCode × String) := [
  ("AC01", PaymentValidationErrorCode.INVALID_PAYER,
    "The provided payer account is either invalid or does not exist."),
  ("AC04", PaymentValidationErrorCode.INVALID_PAYER,
    "The provided payer account is closed."),
  ("AC06", PaymentValidationErrorCode.INVALID_PAYER,
    "The provided payer account is blocked."),
  ("AG01", PaymentValidationErrorCode.INVALID_PAYER,
    "The payment is forbidden on this type of account."),
  ("AM18", PaymentValidationErrorCode.OTHER,
    "The number of instructions exceeds the bank acceptance limit."),
  ("CH03", PaymentValidationErrorCode.INVALID_DATE,
    "The requested execution date is too far in the future."),
  ("CUST", PaymentValidationErrorCode.CANCELLED,
    "The payer has cancelled the payment."),
  ("FF01", PaymentValidationErrorCode.OTHER,
    "The communication with the bank failed unexpectedly."),
  ("FRAD", PaymentValidationErrorCode.REGULATORY_REASON,
    "The payment was rejected for being detected as fraudulent."),
  ("DS02", PaymentValidationErrorCode.CANCELLED,
    "The payer has cancelled the payment."),
  ("MS03", PaymentValidationErrorCode.NONE,
    "The payment was denied by the bank."),
  ("NOAS", PaymentValidationErrorCode.EXPIRED,
    "The payer has neither accepted nor rejected the payment request."),
  ("RR01", PaymentValidationErrorCode.INVALID_PAYER,
    "The payer could not identify themselves."),
  ("RR03", PaymentValidationErrorCode.INVALID_BENEFICIARY,
    "Missing information about the beneficiary name and/or address."),
  ("RR04", PaymentValidationErrorCode.REGULATORY_REASON,
    "The payment has been rejected for a regulatory reason.")]

/-- The base-class configuration values of `Stet140PaymentBrowser`.  The
two failure-callback timeouts are five minutes, i.e. 300 seconds. -/
def Stet140Config : BrowserConfig where
  VALIDATION_ERROR_CODE_MAPPING := VALIDATION_ERROR_CODE_MAPPING
  CANCELLATION_REASON_MAPPING := [(PaymentCancellationReason.ORDERED_BY_PSU, "DS02")]
  VALIDATION_MAY_HAVE_AUTOMATIC_CONFIRMATION := false
  VALIDATION_REDIRECT_FLOW := RedirectFlow.SIMPLE
  CANCELLATION_REDIRECT_FLOW := RedirectFlow.SIMPLE_WITHOUT_CONFIRMATION
  VALIDATION_CONFIRMATION_STATUS_REQUIRED := true
  UNSAFE_CONFIRMATIONS := false
  UNSAFE_URL_ERROR_DETECTION := false
  VALIDATION_FAILURE_CALLBACK_DETECTION_TIMEOUT := some 300
  CANCELLATION_FAILURE_CALLBACK_DETECTION_TIMEOUT := some 300
  CANCELLATION_REDIRECT_WITH_PKCE := false
  PRE_STEP_TYPE := PreStepType.OAUTH_CLIENT

/-- The configuration overrides of `Stet142PaymentBrowser`: an extended
cancellation reason mapping (the dialect and `CANCELLATION_STATUS` changes
are outside the modelled fields). -/
def Stet142Config : BrowserConfig :=
  { Stet140Config with
    CANCELLATION_REASON_MAPPING := [
      (PaymentCancellationReason.ORDERED_BY_PSU, "DS02"),
      (PaymentCancellationReason.DUPLICATE, "DUPL"),
      (PaymentCancellationReason.FRAUDULENT, "FRAD"),
      (PaymentCancellationReason.TECHNICAL, "TECH")] }

/-- The configuration overrides of `Stet150PaymentBrowser`: the validation
redirect flow becomes the OAuth2 Authorisation Code flow (the dialect and
confirmation-endpoint style changes are outside the modelled fields). -/
def Stet150Config : BrowserConfig :=
  { Stet142Config with
    VALIDATION_REDIRECT_FLOW := RedirectFlow.OAUTH_AUTHORISATION_CODE }

/-- Table lookup in the per-bank validation error code mapping
(`self.VALIDATION_ERROR_CODE_MAPPING[data.status_reason]`). -/
def lookup_validation_error_code (cfg : BrowserConfig) (r : String) :
    Option (PaymentValidationErrorCode × String) :=
  (cfg.VALIDATION_ERROR_CODE_MAPPING.find? (fun e => e.1 == r)).map (·.2)

/-- Table lookup in the per-bank cancellation reason mapping
(`self.CANCELLATION_REASON_MAPPING.get(reason)`). -/
def lookup_cancellation_reason (cfg : BrowserConfig)
    (reason : PaymentCancellationReason) : Option String :=
  (cfg.CANCELLATION_REASON_MAPPING.find? (fun e => e.1 == reason)).map (·.2)

/-- A fresh session state, as produced by `setup` with no stored state: every
field takes its pydantic default (no value / false / approach `NONE`). -/
def initial_state : PaymentBrowserState where
  oauth_token := none
  oauth_token_type := none
  oauth_token_expires_at := none
  oauth_refresh_token := none
  payment_nonce := none
  validation_approach := ValidationApproach.NONE
  pkce_verifier := none
  oauth_authorisation_code := none
  oauth_token_to_be_requested := false
  psu_auth_factor := none
  validation_confirmation_required := false
  validation_confirmed := false
  payment_creation_date := none
  payment_information_id := none
  payment_instruction_ids := none
  first_failure_at := none
  first_failure_validation_data := none
  first_failure_cancellation_data := none

/-- The `reset_validation` method: clears the validation-specific session
fields (payment nonce, validation approach, PKCE verifier, OAuth
authorisation code, token-to-be-requested flag, PSU auth factor, and the two
confirmation flags), leaving every other field alone. -/
def reset_validation (st : PaymentBrowserState) : PaymentBrowserState :=
  { st with
    payment_nonce := none
    validation_approach := ValidationApproach.NONE
    pkce_verifier := none
    oauth_authorisation_code := none
    oauth_token_to_be_requested := false
    psu_auth_factor := none
    validation_confirmation_required := false
    validation_confirmed := false }

/-- The outcome of one status decoding step of
`check_current_validation_status`: a raised `PaymentValidationError`
(rejection), a plain return (the PSU still has to act), a raised
`PaymentConfirmationRequired`, or a raised `PaymentInteractionSkipped`
(the authorisation is finished). -/
inductive ValidationOutcome where
  | rejected (code : Option PaymentValidationErrorCode) (message : Option String)
  | awaitingPSU
  | confirmationRequired
  | interactionSkipped
  deriving DecidableEq, Repr

/-- The status decoding step of `check_current_validation_status`: the part
of the method that follows the `get_payment_status_data` call, mapping the
acquired raw status data, the configuration and the session flags to an
outcome.  It reads the session state but performs no request and mutates
nothing. -/
def check_current_validation_status (cfg : BrowserConfig)
    (st : PaymentBrowserState) (d : PaymentStatusData) : ValidationOutcome :=
  if d.status = "RJCT" ∨ d.status = "CANC" then
    match d.status_reason with
    | none => ValidationOutcome.rejected none none
    | some r =>
      match lookup_validation_error_code cfg r with
      | some cm => ValidationOutcome.rejected (some cm.1) (some cm.2)
      | none => ValidationOutcome.rejected (some PaymentValidationErrorCode.OTHER)
          (some "Unknown error")
  else if d.status = "RCVD" ∨ d.status = "ACTC" then
    ValidationOutcome.awaitingPSU
  else if d.status = "ACCO" then
    ValidationOutcome.confirmationRequired
  else if d.status = "ACCP" ∨ d.status = "ACSP" then
    if cfg.VALIDATION_MAY_HAVE_AUTOMATIC_CONFIRMATION then
      ValidationOutcome.interactionSkipped
    else if st.validation_confirmed then
      ValidationOutcome.interactionSkipped
    else if st.validation_approach = ValidationApproach.REDIRECT then
      if cfg.VALIDATION_REDIRECT_FLOW = RedirectFlow.SIMPLE then
        ValidationOutcome.confirmationRequired
      else if cfg.VALIDATION_REDIRECT_FLOW = RedirectFlow.SIMPLE_WITHOUT_CONFIRMATION then
        ValidationOutcome.interactionSkipped
      else
        ValidationOutcome.awaitingPSU
    else
      ValidationOutcome.awaitingPSU
  else
    ValidationOutcome.interactionSkipped

/-- The decoder exactly as the claim words it: RJCT/CANC rejected via the
table with default OTHER; RCVD/ACTC awaiting the PSU; ACCO confirmation
required; ACCP/ACSP confirmation required unless the bank auto-confirms or
the session already recorded confirmation, in which case done; anything
else done. -/
def decode_status_claimed (cfg : BrowserConfig)
    (st : PaymentBrowserState) (d : PaymentStatusData) : ValidationOutcome :=
  if d.status = "RJCT" ∨ d.status = "CANC" then
    match d.status_reason with
    | none => ValidationOutcome.rejected none none
    | some r =>
      match lookup_validation_error_code cfg r with
      | some cm => ValidationOutcome.rejected (some cm.1) (some cm.2)
      | none => ValidationOutcome.rejected (some PaymentValidationErrorCode.OTHER)
          (some "Unknown error")
  else if d.status = "RCVD" ∨ d.status = "ACTC" then
    ValidationOutcome.awaitingPSU
  else if d.status = "ACCO" then
    ValidationOutcome.confirmationRequired
  else if d.status = "ACCP" ∨ d.status = "ACSP" then
    if cfg.VALIDATION_MAY_HAVE_AUTOMATIC_CONFIRMATION ∨ st.validation_confirmed then
      ValidationOutcome.interactionSkipped
    else
      ValidationOutcome.confirmationRequired
  else
    ValidationOutcome.interactionSkipped

/-- The decoder as the amended claim words it: as claimed, except that for
ACCP/ACSP without auto-confirmation and without recorded confirmation, the
outcome is confirmation-required only when the validation approach is
REDIRECT with the SIMPLE redirect flow, done when the approach is REDIRECT
with the SIMPLE_WITHOUT_CONFIRMATION flow, and awaiting-the-PSU in every
other case. -/
def decode_status_amended (cfg : BrowserConfig)
    (st : PaymentBrowserState) (d : PaymentStatusData) : ValidationOutcome :=
  if d.status = "RJCT" ∨ d.status = "CANC" then
    match d.status_reason with
    | none => ValidationOutcome.rejected none none
    | some r =>
      match lookup_validation_error_code cfg r with
      | some cm => ValidationOutcome.rejected (some cm.1) (some cm.2)
      | none => ValidationOutcome.rejected (some PaymentValidationErrorCode.OTHER)
          (some "Unknown error")
  else if d.status = "RCVD" ∨ d.status = "ACTC" then
    ValidationOutcome.awaitingPSU
  else if d.status = "ACCO" then
    ValidationOutcome.confirmationRequired
  else if d.status = "ACCP" ∨ d.status = "ACSP" then
    if cfg.VALIDATION_MAY_HAVE_AUTOMATIC_CONFIRMATION ∨ st.validation_confirmed then
      ValidationOutcome.interactionSkipped
    else if st.validation_approach = ValidationApproach.REDIRECT ∧
        cfg.VALIDATION_REDIRECT_FLOW = RedirectFlow.SIMPLE then
      ValidationOutcome.confirmationRequired
    else if st.validation_approach = ValidationApproach.REDIRECT ∧
        cfg.VALIDATION_REDIRECT_FLOW = RedirectFlow.SIMPLE_WITHOUT_CONFIRMATION then
      ValidationOutcome.interactionSkipped
    else
      ValidationOutcome.awaitingPSU
  else
    ValidationOutcome.interactionSkipped

/-- The exceptions the embedded operations raise, as an explicit sum.
`redirect`, `sameInteraction`, `confirmationRequired` and
`interactionSkipped` are the `BrowserInteraction` signals
(`PaymentRedirect`, `PaymentSameInteraction`, `PaymentConfirmationRequired`,
`PaymentInteractionSkipped`); the rest are failures
(`PaymentValidationError`, `PaymentCancellationError`, `AssertionError`,
`NotImplementedError`). -/
inductive PaymentException where
  | redirect (can_skip : Bool)
  | sameInteraction
  | confirmationRequired
  | interactionSkipped
  | validationError (code : Option PaymentValidationErrorCode) (message : Option String)
  | cancellationError (code : Option PaymentCancellationErrorCode) (message : Option String)
  | assertionFailed
  | notImplemented
  deriving DecidableEq, Repr

/-- Whether an exception is a `BrowserInteraction` control signal, per the
woob exception hierarchy the browser imports (the four payment interaction
classes derive from `BrowserInteraction`; the error classes do not — the
spec's section 7 taxonomy separates interaction signals from failures). -/
def is_browser_interaction : PaymentException → Bool
  | PaymentException.redirect _ => true
  | PaymentException.sameInteraction => true
  | PaymentException.confirmationRequired => true
  | PaymentException.interactionSkipped => true
  | _ => false

/-- A callback URL as the engine sees it: the explicit skip sentinel
(`PaymentRedirect.SKIPPED_VALUE`), an empty string (falsy in Python), or a
URL abstracted to its query parameters. -/
inductive CallbackUrl where
  | skipped
  | emptyUrl
  | url (params : List (String × String))
  deriving DecidableEq, Repr

/-- Reading one query parameter of a callback URL
(`get_url_param(callback_url, key, default=None)`). -/
def get_url_param (params : List (String × String)) (key : String) :
    Option String :=
  (params.find? (fun p => p.1 == key)).map (·.2)

/-- Python's `a or b` over optional strings: the empty string is falsy. -/
def py_str_or (a b : Option String) : Option String :=
  match a with
  | some s => if s = "" then b else some s
  | none => b

/-- Python's truthiness of an optional string. -/
def py_truthy : Option String → Bool
  | some s => !(s == "")
  | none => false

/-- The error-detection core shared by `detect_validation_callback_error`
and `detect_cancellation_callback_error`: reads `error` (or, failing that,
`error_code`) from the URL parameters; when a marker is present, yields the
message of the error to raise (`error_description or ""`). -/
def detect_callback_error (params : List (String × String)) : Option String :=
  match py_str_or (get_url_param params "error") (get_url_param params "error_code") with
  | none => none
  | some _ =>
    some (match get_url_param params "error_description" with
      | some s => s
      | none => "")

/-- The oracle data a token request reads: the token endpoint's response. -/
structure TokenMint where
  token : String
  token_type : Option String
  expires_at : Option Nat
  refresh_token : Option String
  deriving DecidableEq, Repr

/-- Diagnostic metadata mutated on the caller's Payment object
(`payment.extra`): the fields `get_payment_status_data` maintains. -/
structure PaymentExtra where
  last_status : Option String
  last_status_reason : Option String
  deriving DecidableEq, Repr

/-- The environment of one engine entry point: current time, the token
endpoint's response, the caller configuration values `confirm` and
`auth_uri`, the bank's status responses as an oracle indexed by acquisition
order, the validation data of the cancellation response, a fresh PKCE
verifier, and whether the browser already sits on a page carrying the
payment status. -/
structure Env where
  now : Nat
  mint : TokenMint
  confirm : Option String
  callback : Option CallbackUrl
  bank : Nat → PaymentStatusData
  cancellation_vd : ValidationData
  fresh_pkce_verifier : String
  on_page : Bool

/-- The mutable browser: session state, the `new_token` instance flag, the
number of status-data acquisitions so far, the number of HTTP requests
issued, and the Payment diagnostic metadata. -/
structure Browser where
  st : PaymentBrowserState
  new_token : Bool
  fetches : Nat
  requests : Nat
  extra : PaymentExtra
  deriving DecidableEq, Repr

/-- Modelled from the spec: `is_token_expired` lives in the woob
`PaymentBrowser` base class, outside the source tree; section 4.2 of the
spec says the pre-step check "refreshes the pre-step token only if
expired". -/
def is_token_expired (now expires_at : Nat) : Bool :=
  decide (expires_at ≤ now)

/-- The `request_oauth_token` method: one POST to the token endpoint, then
the session token fields are set from the response and `new_token` becomes
true.  Token endpoint failures are outside this model. -/
def request_oauth_token (env : Env) (b : Browser) : Browser :=
  { b with
    st := { b.st with
      oauth_token := some env.mint.token
      oauth_token_type := some (match env.mint.token_type with
        | some t => t
        | none => "Bearer")
      oauth_token_expires_at := env.mint.expires_at
      oauth_refresh_token := env.mint.refresh_token }
    new_token := true
    requests := b.requests + 1 }

/-- The `reset_oauth_token` method: clears the four token fields. -/
def reset_oauth_token (st : PaymentBrowserState) : PaymentBrowserState :=
  { st with
    oauth_token := none
    oauth_token_type := none
    oauth_refresh_token := none
    oauth_token_expires_at := none }

/-- The `refresh_oauth_token_if_possible` method: drops the current token,
then uses the refresh token when one exists; yields whether a refresh
happened. -/
def refresh_oauth_token_if_possible (env : Env) (b : Browser) :
    Browser × Bool :=
  let b1 : Browser := { b with st := { b.st with oauth_token := none } }
  match b.st.oauth_refresh_token with
  | none => (b1, false)
  | some _ => (request_oauth_token env b1, true)

/-- The `check_oauth_token` method: nothing to do without a token or while
the token is unexpired; otherwise try a refresh and record the result in
`new_token`. -/
def check_oauth_token (env : Env) (b : Browser) : Browser :=
  match b.st.oauth_token with
  | none => b
  | some _ =>
    match b.st.oauth_token_expires_at with
    | none => b
    | some e =>
      if !is_token_expired env.now e then b
      else
        let (b1, refreshed) := refresh_oauth_token_if_possible env b
        { b1 with new_token := refreshed }

/-- The `check_pre_step` method: check the OAuth token; if none survives and
the pre-step is the OAuth client credentials grant, request a pre-step
client token. -/
def check_pre_step (cfg : BrowserConfig) (env : Env) (b : Browser) : Browser :=
  let b1 := check_oauth_token env b
  match b1.st.oauth_token with
  | some _ => b1
  | none =>
    if cfg.PRE_STEP_TYPE = PreStepType.NONE then b1
    else request_oauth_token env b1

/-- The `get_payment_status_data` method: when the browser already sits on a
page for this payment, reuse it; otherwise run the pre-step check and
request the payment page.  Either way the acquired raw status data is
recorded in the Payment diagnostics and returned. -/
def get_payment_status_data (cfg : BrowserConfig) (env : Env)
    (on_page : Bool) (b : Browser) : PaymentStatusData × Browser :=
  let b1 : Browser :=
    if on_page then b
    else
      let b' := check_pre_step cfg env b
      { b' with requests := b'.requests + 1 }
  let d := env.bank b1.fetches
  (d, { b1 with
    fetches := b1.fetches + 1
    extra := {
      last_status := if d.status = "" then none else some d.status
      last_status_reason := match d.status_reason with
        | some s => if s = "" then none else some s
        | none => none } })

/-- The `is_validation_redirect_skippable` property. -/
def is_validation_redirect_skippable (cfg : BrowserConfig) : Bool :=
  cfg.VALIDATION_REDIRECT_FLOW = RedirectFlow.SIMPLE ∨
    cfg.VALIDATION_REDIRECT_FLOW = RedirectFlow.SIMPLE_WITHOUT_CONFIRMATION

/-- The `should_retry_with_new_token` method: a failed request is retried
with a new token exactly when the response status is 403, the token is not
freshly minted, and a pre-step authentication exists. -/
def should_retry_with_new_token (cfg : BrowserConfig) (new_token : Bool)
    (status_code : Nat) : Bool :=
  status_code == 403 && !new_token &&
    !(cfg.PRE_STEP_TYPE == PreStepType.NONE)

/-- Python's `str(exc) or None` applied to a stored optional message. -/
def py_msg_or_none : Option String → Option String
  | some s => if s = "" then none else some s
  | none => none

/-- Python's `message or ""` applied to a stored optional message. -/
def py_msg_or_empty : Option String → String
  | some s => s
  | none => ""

/-- The `resume_payment_validation_redirect` method, translated branch by
branch.  Bank sub-requests (token and confirmation endpoints) are modelled
as succeeding and counted in `requests`. -/
def resume_payment_validation_redirect (cfg : BrowserConfig) (env : Env)
    (confirmation_required : Bool) (b : Browser) :
    Except PaymentException Unit × Browser :=
  if py_truthy env.confirm then
    if env.confirm = some "false" then
      (Except.error (PaymentException.validationError
        (some PaymentValidationErrorCode.CONFIRMATION_REFUSED) none), b)
    else if cfg.VALIDATION_REDIRECT_FLOW = RedirectFlow.OAUTH_AUTHORISATION_CODE ∨
        cfg.VALIDATION_REDIRECT_FLOW =
          RedirectFlow.OAUTH_AUTHORISATION_CODE_WITHOUT_CONFIRMATION then
      let b1 :=
        if b.st.oauth_token_to_be_requested ∧ b.st.oauth_authorisation_code ≠ none then
          request_oauth_token env
            { b with st := { b.st with oauth_token_to_be_requested := false } }
        else b
      let b2 :=
        if cfg.VALIDATION_REDIRECT_FLOW = RedirectFlow.OAUTH_AUTHORISATION_CODE then
          { b1 with requests := b1.requests + 1 }
        else b1
      let b3 : Browser := { b2 with st := reset_oauth_token b2.st }
      (Except.ok (), { b3 with st := { b3.st with validation_confirmed := true } })
    else
      let b1 : Browser := { b with requests := b.requests + 1 }
      (Except.ok (), { b1 with st := { b1.st with validation_confirmed := true } })
  else
    match env.callback with
    | none => (Except.error PaymentException.sameInteraction, b)
    | some CallbackUrl.emptyUrl => (Except.error PaymentException.sameInteraction, b)
    | some cb =>
      if cfg.VALIDATION_REDIRECT_FLOW = RedirectFlow.OAUTH_AUTHORISATION_CODE ∨
          cfg.VALIDATION_REDIRECT_FLOW =
            RedirectFlow.OAUTH_AUTHORISATION_CODE_WITHOUT_CONFIRMATION then
        match cb with
        | CallbackUrl.url ps =>
          match get_url_param ps "code" with
          | none => (Except.error PaymentException.sameInteraction, b)
          | some c =>
            let b1 : Browser :=
              { b with st := { b.st with oauth_authorisation_code := some c } }
            if cfg.VALIDATION_REDIRECT_FLOW =
                RedirectFlow.OAUTH_AUTHORISATION_CODE_WITHOUT_CONFIRMATION ∧
                cfg.UNSAFE_CONFIRMATIONS then
              (Except.error PaymentException.confirmationRequired,
                { b1 with st := { b1.st with
                  oauth_token_to_be_requested := true
                  validation_confirmation_required := true } })
            else
              let b2 := request_oauth_token env b1
              if cfg.VALIDATION_REDIRECT_FLOW = RedirectFlow.OAUTH_AUTHORISATION_CODE then
                (Except.error PaymentException.confirmationRequired,
                  { b2 with st := { b2.st with validation_confirmation_required := true } })
              else
                let b3 : Browser := { b2 with st := reset_oauth_token b2.st }
                (Except.ok (),
                  { b3 with st := { b3.st with validation_confirmed := true } })
        | _ => (Except.error PaymentException.sameInteraction, b)
      else if cfg.VALIDATION_REDIRECT_FLOW = RedirectFlow.SIMPLE_WITH_AUTH_FACTOR then
        match cb with
        | CallbackUrl.url ps =>
          match get_url_param ps "psuAuthenticationFactor" with
          | none => (Except.error PaymentException.sameInteraction, b)
          | some p =>
            if cfg.UNSAFE_CONFIRMATIONS then
              (Except.error PaymentException.confirmationRequired,
                { b with st := { b.st with
                  psu_auth_factor := some p
                  validation_confirmation_required := true } })
            else
              let b1 : Browser := { b with requests := b.requests + 1 }
              (Except.ok (),
                { b1 with st := { b1.st with validation_confirmed := true } })
        | _ => (Except.error PaymentException.sameInteraction, b)
      else if cfg.VALIDATION_REDIRECT_FLOW = RedirectFlow.SIMPLE then
        if confirmation_required then
          (Except.error PaymentException.confirmationRequired,
            { b with st := { b.st with
              psu_auth_factor := none
              validation_confirmation_required := true } })
        else if cfg.VALIDATION_CONFIRMATION_STATUS_REQUIRED then
          (Except.error PaymentException.sameInteraction, b)
        else if cb = CallbackUrl.skipped then
          (Except.error PaymentException.sameInteraction, b)
        else if cfg.UNSAFE_CONFIRMATIONS then
          (Except.error PaymentException.confirmationRequired,
            { b with st := { b.st with
              psu_auth_factor := none
              validation_confirmation_required := true } })
        else
          let b1 : Browser := { b with requests := b.requests + 1 }
          (Except.ok (), { b1 with st := { b1.st with validation_confirmed := true } })
      else
        (Except.error PaymentException.sameInteraction, b)

/-- The frozen failure the validation delay buffer raises once its window
closes: the (code, message) pair recorded at first detection
(`PaymentValidationError(message or "", code=code)`), or a bare failure
when no data was frozen. -/
def validation_frozen_failure (b : Browser) : Except PaymentException Unit :=
  match b.st.first_failure_validation_data with
  | some cm => Except.error (PaymentException.validationError cm.1
      (some (py_msg_or_empty cm.2)))
  | none => Except.error (PaymentException.validationError none none)

/-- The timeout decision of the validation delay buffer, reached when the
callback produced no error: wait (same interaction) while inside the
window, raise the frozen failure otherwise. -/
def validation_failure_after_detect (cfg : BrowserConfig) (env : Env)
    (t : Nat) (b : Browser) : Except PaymentException Unit :=
  if cfg.UNSAFE_URL_ERROR_DETECTION then
    match cfg.VALIDATION_FAILURE_CALLBACK_DETECTION_TIMEOUT with
    | some timeout =>
      if env.now < t + timeout then Except.error PaymentException.sameInteraction
      else validation_frozen_failure b
    | none => validation_frozen_failure b
  else validation_frozen_failure b

/-- The first-failure branch of `resume_payment_validation` (the delay
buffer): no bank access; an error marker in an available callback wins,
then the timeout decides between waiting and raising the frozen failure. -/
def resume_validation_first_failure (cfg : BrowserConfig) (env : Env)
    (t : Nat) (b : Browser) : Except PaymentException Unit :=
  if cfg.UNSAFE_URL_ERROR_DETECTION then
    match env.callback with
    | some (CallbackUrl.url ps) =>
      match detect_callback_error ps with
      | some msg => Except.error (PaymentException.validationError none (some msg))
      | none => validation_failure_after_detect cfg env t b
    | _ => validation_failure_after_detect cfg env t b
  else validation_failure_after_detect cfg env t b

/-- The `PaymentValidationError` handler of `resume_payment_validation`:
with a redirect approach and URL error detection enabled, an available
callback either supplies a better error or the original failure is
re-raised; with no callback and a configured timeout, the failure is frozen
into the session state and a same-interaction signal raised instead. -/
def handle_validation_error (cfg : BrowserConfig) (env : Env)
    (code : Option PaymentValidationErrorCode) (message : Option String)
    (b : Browser) : Except PaymentException Unit × Browser :=
  let original : Except PaymentException Unit :=
    Except.error (PaymentException.validationError code message)
  if b.st.validation_approach ≠ ValidationApproach.REDIRECT then (original, b)
  else if !cfg.UNSAFE_URL_ERROR_DETECTION then (original, b)
  else
    match env.callback with
    | some (CallbackUrl.url ps) =>
      (match detect_callback_error ps with
        | some msg => Except.error (PaymentException.validationError none (some msg))
        | none => original, b)
    | some CallbackUrl.emptyUrl => (original, b)
    | _ =>
      match cfg.VALIDATION_FAILURE_CALLBACK_DETECTION_TIMEOUT with
      | none => (original, b)
      | some _ =>
        (Except.error PaymentException.sameInteraction,
          { b with st := { b.st with
            first_failure_at := some env.now
            first_failure_validation_data := some (code, py_msg_or_none message) } })

/-- The `resume_payment_validation` method: the first-failure branch when a
failure was frozen earlier, otherwise a status check whose outcome is
dispatched (finish, confirmation flag, failure handler, or the redirect
resume). -/
def resume_payment_validation (cfg : BrowserConfig) (env : Env)
    (b : Browser) : Except PaymentException Unit × Browser :=
  match b.st.first_failure_at with
  | some t => (resume_validation_first_failure cfg env t b, b)
  | none =>
    let (d, b1) := get_payment_status_data cfg env env.on_page b
    match check_current_validation_status cfg b1.st d with
    | ValidationOutcome.interactionSkipped => (Except.ok (), b1)
    | ValidationOutcome.rejected c m => handle_validation_error cfg env c m b1
    | ValidationOutcome.confirmationRequired =>
      if b1.st.validation_approach = ValidationApproach.REDIRECT then
        resume_payment_validation_redirect cfg env true b1
      else (Except.error PaymentException.notImplemented, b1)
    | ValidationOutcome.awaitingPSU =>
      if b1.st.validation_approach = ValidationApproach.REDIRECT then
        resume_payment_validation_redirect cfg env false b1
      else (Except.error PaymentException.notImplemented, b1)

/-- The tail of `create_and_validate_payment`: after the validation flow,
re-check the status; a still-pending or still-confirming status is a fatal
assertion failure, a finished one clears the validation fields and returns
normally, a rejection propagates. -/
def create_and_validate_payment_finish (cfg : BrowserConfig) (env : Env)
    (b : Browser) : Except PaymentException Unit × Browser :=
  let (d, b1) := get_payment_status_data cfg env env.on_page b
  match check_current_validation_status cfg b1.st d with
  | ValidationOutcome.confirmationRequired =>
    (Except.error PaymentException.assertionFailed, b1)
  | ValidationOutcome.interactionSkipped =>
    (Except.ok (), { b1 with st := reset_validation b1.st })
  | ValidationOutcome.awaitingPSU =>
    (Except.error PaymentException.assertionFailed, b1)
  | ValidationOutcome.rejected c m =>
    (Except.error (PaymentException.validationError c m), b1)

/-- The `check_payment_during_creation` method.  The `ClientError` retry
path is not modelled (bank requests succeed in this embedding); the
`PaymentConfirmationRequired` handler is: re-signal as interaction-skipped
when the redirect is skippable and confirmation was not yet requested,
otherwise swallow the signal and return. -/
def check_payment_during_creation (cfg : BrowserConfig) (env : Env)
    (has_payment_id : Bool) (b : Browser) :
    Except PaymentException Unit × Browser :=
  if !has_payment_id then (Except.ok (), b)
  else
    let b1 := check_pre_step cfg env b
    let (d, b2) := get_payment_status_data cfg env env.on_page b1
    match check_current_validation_status cfg b2.st d with
    | ValidationOutcome.confirmationRequired =>
      if is_validation_redirect_skippable cfg ∧
          !b2.st.validation_confirmation_required then
        (Except.error PaymentException.interactionSkipped, b2)
      else (Except.ok (), b2)
    | ValidationOutcome.interactionSkipped =>
      (Except.error PaymentException.interactionSkipped, b2)
    | ValidationOutcome.rejected c m =>
      (Except.error (PaymentException.validationError c m), b2)
    | ValidationOutcome.awaitingPSU => (Except.ok (), b2)

/-- The retry wrapper of `create_and_validate_payment` (and the other entry
points): the operation, abstracted as an oracle `op` from the attempt index
to success or an HTTP error status, is re-issued with a fresh pre-step
token when `should_retry_with_new_token` accepts the failure.  Yields the
final result and the number of token refreshes performed. -/
def create_and_validate_retry (cfg : BrowserConfig)
    (op : Nat → Except Nat Unit) (new_token : Bool) (attempt : Nat)
    (refreshes : Nat) : Except Nat Unit × Nat :=
  match op attempt with
  | Except.ok _ => (Except.ok (), refreshes)
  | Except.error status =>
    if h : should_retry_with_new_token cfg new_token status then
      create_and_validate_retry cfg op true (attempt + 1) (refreshes + 1)
    else (Except.error status, refreshes)
termination_by (if new_token then 0 else 1)
decreasing_by
  simp only [should_retry_with_new_token, Bool.and_eq_true, Bool.not_eq_true'] at h
  simp [h.1.2]

/-- The status decoding step of `check_current_cancellation_status`: a
rejected or cancelled payment means the cancellation interaction is already
finished; a status other than pending/in-process means the payment is not
cancellable; anything else lets the authorisation continue. -/
def check_current_cancellation_status (d : PaymentStatusData) :
    Except PaymentException Unit :=
  if d.status = "RJCT" ∨ d.status = "CANC" then
    Except.error PaymentException.interactionSkipped
  else if ¬(d.status = "PDNG" ∨ d.status = "ACSP") then
    Except.error (PaymentException.cancellationError
      (some PaymentCancellationErrorCode.NOT_CANCELLABLE) none)
  else Except.ok ()

/-- The `initialize_payment_cancellation_validation` method: records the
nonce and approach from the cancellation response; with no approach the
cancellation must already show as finished (else an assertion failure);
with a redirect approach a redirect signal is raised, skippable only for
the simple-without-confirmation flow. -/
def initialize_payment_cancellation_validation (cfg : BrowserConfig)
    (env : Env) (b : Browser) : Except PaymentException Unit × Browser :=
  let b1 : Browser := { b with st := { b.st with
    payment_nonce := env.cancellation_vd.nonce
    validation_approach := env.cancellation_vd.approach } }
  match env.cancellation_vd.approach with
  | ValidationApproach.NONE =>
    let (d, b2) := get_payment_status_data cfg env false b1
    match check_current_cancellation_status d with
    | Except.error PaymentException.interactionSkipped => (Except.ok (), b2)
    | Except.error e => (Except.error e, b2)
    | Except.ok _ => (Except.error PaymentException.assertionFailed, b2)
  | ValidationApproach.REDIRECT =>
    if cfg.CANCELLATION_REDIRECT_FLOW = RedirectFlow.SIMPLE ∨
        cfg.CANCELLATION_REDIRECT_FLOW = RedirectFlow.SIMPLE_WITHOUT_CONFIRMATION ∨
        cfg.CANCELLATION_REDIRECT_FLOW = RedirectFlow.SIMPLE_WITH_AUTH_FACTOR then
      (Except.error (PaymentException.redirect
        (cfg.CANCELLATION_REDIRECT_FLOW = RedirectFlow.SIMPLE_WITHOUT_CONFIRMATION)), b1)
    else if ¬(cfg.CANCELLATION_REDIRECT_FLOW = RedirectFlow.OAUTH_AUTHORISATION_CODE ∨
        cfg.CANCELLATION_REDIRECT_FLOW =
          RedirectFlow.OAUTH_AUTHORISATION_CODE_WITHOUT_CONFIRMATION) then
      (Except.error PaymentException.notImplemented, b1)
    else
      (Except.error (PaymentException.redirect false), b1)
  | _ => (Except.error PaymentException.notImplemented, b1)

/-- The `resume_payment_cancellation_redirect` method, translated branch by
branch as its validation counterpart (the confirm path does not mark the
session confirmed here). -/
def resume_payment_cancellation_redirect (cfg : BrowserConfig) (env : Env)
    (b : Browser) : Except PaymentException Unit × Browser :=
  if py_truthy env.confirm then
    if env.confirm = some "false" then
      (Except.error (PaymentException.cancellationError
        (some PaymentCancellationErrorCode.CONFIRMATION_REFUSED) none), b)
    else if cfg.CANCELLATION_REDIRECT_FLOW = RedirectFlow.OAUTH_AUTHORISATION_CODE ∨
        cfg.CANCELLATION_REDIRECT_FLOW =
          RedirectFlow.OAUTH_AUTHORISATION_CODE_WITHOUT_CONFIRMATION then
      let b1 :=
        if b.st.oauth_token_to_be_requested ∧ b.st.oauth_authorisation_code ≠ none then
          request_oauth_token env
            { b with st := { b.st with oauth_token_to_be_requested := false } }
        else b
      let b2 :=
        if cfg.CANCELLATION_REDIRECT_FLOW = RedirectFlow.OAUTH_AUTHORISATION_CODE then
          { b1 with requests := b1.requests + 1 }
        else b1
      (Except.ok (), { b2 with st := reset_oauth_token b2.st })
    else
      (Except.ok (), { b with requests := b.requests + 1 })
  else if b.st.validation_confirmation_required then
    (Except.error PaymentException.sameInteraction, b)
  else
    match env.callback with
    | none => (Except.error PaymentException.sameInteraction, b)
    | some CallbackUrl.emptyUrl => (Except.error PaymentException.sameInteraction, b)
    | some cb =>
      if cfg.CANCELLATION_REDIRECT_FLOW = RedirectFlow.OAUTH_AUTHORISATION_CODE ∨
          cfg.CANCELLATION_REDIRECT_FLOW =
            RedirectFlow.OAUTH_AUTHORISATION_CODE_WITHOUT_CONFIRMATION then
        match cb with
        | CallbackUrl.url ps =>
          match get_url_param ps "code" with
          | none => (Except.error PaymentException.sameInteraction, b)
          | some c =>
            let b1 : Browser :=
              { b with st := { b.st with oauth_authorisation_code := some c } }
            if cfg.CANCELLATION_REDIRECT_FLOW =
                RedirectFlow.OAUTH_AUTHORISATION_CODE_WITHOUT_CONFIRMATION ∧
                cfg.UNSAFE_CONFIRMATIONS then
              (Except.error PaymentException.confirmationRequired,
                { b1 with st := { b1.st with oauth_token_to_be_requested := true } })
            else
              let b2 := request_oauth_token env b1
              if cfg.CANCELLATION_REDIRECT_FLOW = RedirectFlow.OAUTH_AUTHORISATION_CODE then
                (Except.error PaymentException.confirmationRequired, b2)
              else
                (Except.ok (), { b2 with st := reset_oauth_token b2.st })
        | _ => (Except.error PaymentException.sameInteraction, b)
      else if cfg.CANCELLATION_REDIRECT_FLOW = RedirectFlow.SIMPLE_WITH_AUTH_FACTOR then
        match cb with
        | CallbackUrl.url ps =>
          match get_url_param ps "psuAuthenticationFactor" with
          | none => (Except.error PaymentException.sameInteraction, b)
          | some p =>
            if cfg.UNSAFE_CONFIRMATIONS then
              (Except.error PaymentException.confirmationRequired,
                { b with st := { b.st with psu_auth_factor := some p } })
            else
              (Except.ok (), { b with requests := b.requests + 1 })
        | _ => (Except.error PaymentException.sameInteraction, b)
      else
        (Except.error PaymentException.sameInteraction, b)

/-- The frozen failure the cancellation delay buffer raises once its window
closes. -/
def cancellation_frozen_failure (b : Browser) : Except PaymentException Unit :=
  match b.st.first_failure_cancellation_data with
  | some cm => Except.error (PaymentException.cancellationError cm.1
      (some (py_msg_or_empty cm.2)))
  | none => Except.error (PaymentException.cancellationError none none)

/-- The timeout decision of the cancellation delay buffer. -/
def cancellation_failure_after_detect (cfg : BrowserConfig) (env : Env)
    (t : Nat) (b : Browser) : Except PaymentException Unit :=
  if cfg.UNSAFE_URL_ERROR_DETECTION then
    match cfg.CANCELLATION_FAILURE_CALLBACK_DETECTION_TIMEOUT with
    | some timeout =>
      if env.now < t + timeout then Except.error PaymentException.sameInteraction
      else cancellation_frozen_failure b
    | none => cancellation_frozen_failure b
  else cancellation_frozen_failure b

/-- The first-failure branch of `resume_payment_cancellation_validation`:
the cancellation-side delay buffer, mirroring the validation one with the
cancellation timeout and the frozen cancellation failure data. -/
def resume_cancellation_first_failure (cfg : BrowserConfig) (env : Env)
    (t : Nat) (b : Browser) : Except PaymentException Unit :=
  if cfg.UNSAFE_URL_ERROR_DETECTION then
    match env.callback with
    | some (CallbackUrl.url ps) =>
      match detect_callback_error ps with
      | some msg => Except.error (PaymentException.cancellationError none (some msg))
      | none => cancellation_failure_after_detect cfg env t b
    | _ => cancellation_failure_after_detect cfg env t b
  else cancellation_failure_after_detect cfg env t b

/-- The `PaymentCancellationError` handler of
`resume_payment_cancellation_validation`, mirroring the validation-side
handler. -/
def handle_cancellation_error (cfg : BrowserConfig) (env : Env)
    (code : Option PaymentCancellationErrorCode) (message : Option String)
    (b : Browser) : Except PaymentException Unit × Browser :=
  let original : Except PaymentException Unit :=
    Except.error (PaymentException.cancellationError code message)
  if b.st.validation_approach ≠ ValidationApproach.REDIRECT then (original, b)
  else if !cfg.UNSAFE_URL_ERROR_DETECTION then (original, b)
  else
    match env.callback with
    | some (CallbackUrl.url ps) =>
      (match detect_callback_error ps with
        | some msg => Except.error (PaymentException.cancellationError none (some msg))
        | none => original, b)
    | some CallbackUrl.emptyUrl => (original, b)
    | _ =>
      match cfg.CANCELLATION_FAILURE_CALLBACK_DETECTION_TIMEOUT with
      | none => (original, b)
      | some _ =>
        (Except.error PaymentException.sameInteraction,
          { b with st := { b.st with
            first_failure_at := some env.now
            first_failure_cancellation_data := some (code, py_msg_or_none message) } })

/-- The `resume_payment_cancellation_validation` method. -/
def resume_payment_cancellation_validation (cfg : BrowserConfig) (env : Env)
    (b : Browser) : Except PaymentException Unit × Browser :=
  match b.st.first_failure_at with
  | some t => (resume_cancellation_first_failure cfg env t b, b)
  | none =>
    let (d, b1) := get_payment_status_data cfg env env.on_page b
    match check_current_cancellation_status d with
    | Except.error PaymentException.interactionSkipped => (Except.ok (), b1)
    | Except.error (PaymentException.cancellationError c m) =>
      handle_cancellation_error cfg env c m b1
    | Except.error e => (Except.error e, b1)
    | Except.ok _ =>
      if b1.st.validation_approach = ValidationApproach.REDIRECT then
        resume_payment_cancellation_redirect cfg env b1
      else (Except.error PaymentException.notImplemented, b1)

/-- The body of the `try` block of `cancel_payment`: the cancellation PUT
and validation initialisation (or the resume when a validation approach is
already recorded), followed by the final status check that must report the
cancellation as finished. -/
def cancel_payment_flow (cfg : BrowserConfig) (env : Env) (b : Browser) :
    Except PaymentException Unit × Browser :=
  let (r1, b1) :=
    if b.st.validation_approach = ValidationApproach.NONE then
      let (d, b') := get_payment_status_data cfg env env.on_page b
      match check_current_cancellation_status d with
      | Except.error PaymentException.interactionSkipped =>
        (Except.error (PaymentException.cancellationError
          (some PaymentCancellationErrorCode.ALREADY_CANCELLED) none), b')
      | Except.error e => (Except.error e, b')
      | Except.ok _ =>
        let b2 : Browser := { b' with st := { b'.st with
          pkce_verifier :=
            if cfg.CANCELLATION_REDIRECT_WITH_PKCE then some env.fresh_pkce_verifier
            else none } }
        let b3 : Browser := { b2 with requests := b2.requests + 1 }
        initialize_payment_cancellation_validation cfg env b3
    else resume_payment_cancellation_validation cfg env b
  match r1 with
  | Except.error e => (Except.error e, b1)
  | Except.ok _ =>
    let (d2, b4) := get_payment_status_data cfg env env.on_page b1
    match check_current_cancellation_status d2 with
    | Except.error PaymentException.interactionSkipped => (Except.ok (), b4)
    | Except.error e => (Except.error e, b4)
    | Except.ok _ => (Except.error PaymentException.assertionFailed, b4)

/-- The `cancel_payment` method: the up-front reason-mapping and
creation-parameter checks (both before any bank access), then a token reset
and pre-step, then the flow body guarded by the exception handler that
resets the validation fields on any non-interaction exception. -/
def cancel_payment (cfg : BrowserConfig) (env : Env)
    (reason : PaymentCancellationReason) (b : Browser) :
    Except PaymentException Unit × Browser :=
  match lookup_cancellation_reason cfg reason with
  | none =>
    (Except.error (PaymentException.cancellationError
      (some PaymentCancellationErrorCode.OTHER)
      (some "Unsupported cancellation reason.")), b)
  | some _ =>
    if b.st.payment_information_id = none ∨ b.st.payment_creation_date = none ∨
        b.st.payment_instruction_ids = none then
      (Except.error (PaymentException.cancellationError
        (some PaymentCancellationErrorCode.NOT_CANCELLABLE)
        (some "Unable to cancel the payment due to internal changes.")), b)
    else
      let b1 := check_pre_step cfg env { b with st := reset_oauth_token b.st }
      let (r, b2) := cancel_payment_flow cfg env b1
      match r with
      | Except.ok _ => (Except.ok (), b2)
      | Except.error e =>
        if is_browser_interaction e then (Except.error e, b2)
        else (Except.error e, { b2 with st := reset_validation b2.st })

/-- The full `check_current_validation_status` method: the status-data
acquisition followed by the pure decoding step. -/
def check_current_validation_status_full (cfg : BrowserConfig) (env : Env)
    (on_page : Bool) (b : Browser) : ValidationOutcome × Browser :=
  let acquired := get_payment_status_data cfg env on_page b
  (check_current_validation_status cfg acquired.2.st acquired.1, acquired.2)

/-- A token endpoint response used as a concrete oracle in witnesses. -/
def sample_mint : TokenMint where
  token := "freshtoken"
  token_type := some "Bearer"
  expires_at := some 9000
  refresh_token := none

/-- A concrete environment used in witnesses. -/
def sample_env : Env where
  now := 1000
  mint := sample_mint
  confirm := none
  callback := none
  bank := fun _ => { status := "PDNG", status_reason := none }
  cancellation_vd := { nonce := some "nonce1", approach := ValidationApproach.NONE }
  fresh_pkce_verifier := "pkceverif"
  on_page := true

/-- A browser wrapper around a session state, used in witnesses. -/
def sample_browser (st : PaymentBrowserState) : Browser where
  st := st
  new_token := false
  fetches := 0
  requests := 0
  extra := { last_status := none, last_status_reason := none }

/-- A session state in the middle of a redirect validation, as the
counterexample for the claimed decoder needs: the approach is recorded as
REDIRECT, nothing is confirmed yet. -/
def redirect_pending_state : PaymentBrowserState :=
  { initial_state with validation_approach := ValidationApproach.REDIRECT }

/-- No error marker is extractable from the environment's callback, if any:
the hypothesis under which the delay buffer falls through to its timeout
decision. -/
def no_callback_error (env : Env) : Prop :=
  ∀ ps, env.callback = some (CallbackUrl.url ps) → detect_callback_error ps = none

/-- A session state carrying a frozen validation failure, for the delay
buffer witness. -/
def frozen_failure_state : PaymentBrowserState :=
  { redirect_pending_state with
    first_failure_at := some 100
    first_failure_validation_data :=
      some (some PaymentValidationErrorCode.CANCELLED, some "The payer has cancelled the payment.")
    first_failure_cancellation_data :=
      some (some PaymentCancellationErrorCode.OTHER, none) }

/-- The base configuration with URL error detection enabled, as bank
modules that use the delay buffer configure it. -/
def UnsafeDetectionConfig : BrowserConfig :=
  { Stet140Config with UNSAFE_URL_ERROR_DETECTION := true }

/-- A session state holding the original creation parameters, so that a
cancellation passes its up-front checks. -/
def cancellable_state : PaymentBrowserState :=
  { initial_state with
    payment_creation_date := some 50
    payment_information_id := some "PID1"
    payment_instruction_ids := some ["IID1"] }

/-- A session state whose pre-step token is present and far from expiry. -/
def fresh_token_state : PaymentBrowserState :=
  { initial_state with
    oauth_token := some "tok0"
    oauth_token_expires_at := some 5000 }

/-- C10: `reset_validation` clears exactly the eight validation fields and
leaves the token fields, the first-failure fields and the creation
parameters untouched. -/
theorem C10_reset_validation_frame (st : PaymentBrowserState) :
    (reset_validation st).payment_nonce = none ∧
    (reset_validation st).validation_approach = ValidationApproach.NONE ∧
    (reset_validation st).pkce_verifier = none ∧
    (reset_validation st).oauth_authorisation_code = none ∧
    (reset_validation st).oauth_token_to_be_requested = false ∧
    (reset_validation st).psu_auth_factor = none ∧
    (reset_validation st).validation_confirmation_required = false ∧
    (reset_validation st).validation_confirmed = false ∧
    (reset_validation st).oauth_token = st.oauth_token ∧
    (reset_validation st).oauth_token_type = st.oauth_token_type ∧
    (reset_validation st).oauth_token_expires_at = st.oauth_token_expires_at ∧
    (reset_validation st).oauth_refresh_token = st.oauth_refresh_token ∧
    (reset_validation st).payment_creation_date = st.payment_creation_date ∧
    (reset_validation st).payment_information_id = st.payment_information_id ∧
    (reset_validation st).payment_instruction_ids = st.payment_instruction_ids ∧
    (reset_validation st).first_failure_at = st.first_failure_at ∧
    (reset_validation st).first_failure_validation_data = st.first_failure_validation_data ∧
    (reset_validation st).first_failure_cancellation_data = st.first_failure_cancellation_data := by
  repeat refine And.intro rfl ?_
  rfl

/-- C1 counterexample: with the STET 1.5.0 OAuth authorisation-code redirect
flow and a pending redirect validation, an `ACCP` status decodes to the
awaiting-the-PSU outcome, while the claim demands confirmation-required. -/
theorem C1_counterexample :
    check_current_validation_status Stet150Config redirect_pending_state
      { status := "ACCP", status_reason := none } =
      ValidationOutcome.awaitingPSU ∧
    decode_status_claimed Stet150Config redirect_pending_state
      { status := "ACCP", status_reason := none } =
      ValidationOutcome.confirmationRequired ∧
    ValidationOutcome.awaitingPSU ≠ ValidationOutcome.confirmationRequired := by
  refine ⟨by decide, by decide, by decide⟩

/-- C1 (amended): the status decoding step agrees everywhere with the
amended table: RJCT/CANC rejected via the per-bank table with default
OTHER, RCVD/ACTC awaiting the PSU, ACCO confirmation-required, ACCP/ACSP
finished under auto-confirmation or recorded confirmation and otherwise
decided by the redirect approach and flow (confirmation-required only for
the SIMPLE flow, finished for SIMPLE_WITHOUT_CONFIRMATION, awaiting the
PSU in every other case), and anything else finished. -/
theorem C1_status_decoder (cfg : BrowserConfig) (st : PaymentBrowserState)
    (d : PaymentStatusData) :
    check_current_validation_status cfg st d = decode_status_amended cfg st d := by
  unfold check_current_validation_status decode_status_amended
  split_ifs <;> first | rfl | tauto

/-- C4: `cancel_payment` rejects an unmapped cancellation reason up front,
and a missing creation parameter yields an immediate permanent
NOT_CANCELLABLE failure; both paths leave the browser untouched (in
particular no bank request is issued), and the base mapping sends
ordered-by-PSU to the bank code DS02. -/
theorem C4_cancel_preconditions (cfg : BrowserConfig) (env : Env)
    (reason : PaymentCancellationReason) (b : Browser) :
    (lookup_cancellation_reason cfg reason = none →
      cancel_payment cfg env reason b =
        (Except.error (PaymentException.cancellationError
          (some PaymentCancellationErrorCode.OTHER)
          (some "Unsupported cancellation reason.")), b)) ∧
    (∀ sr, lookup_cancellation_reason cfg reason = some sr →
      b.st.payment_information_id = none ∨ b.st.payment_creation_date = none ∨
        b.st.payment_instruction_ids = none →
      cancel_payment cfg env reason b =
        (Except.error (PaymentException.cancellationError
          (some PaymentCancellationErrorCode.NOT_CANCELLABLE)
          (some "Unable to cancel the payment due to internal changes.")), b)) ∧
    lookup_cancellation_reason Stet140Config
      PaymentCancellationReason.ORDERED_BY_PSU = some "DS02" := by
  refine ⟨?_, ?_, by decide⟩
  · intro h
    unfold cancel_payment
    rw [h]
  · intro sr hsr hmiss
    unfold cancel_payment
    rw [hsr]
    simp only [if_pos hmiss]

/-- C4 witness: cancelling with the DUPLICATE reason, which the base
mapping does not contain, fails up front without touching the browser. -/
theorem C4_cancel_preconditions_witness :
    cancel_payment Stet140Config sample_env PaymentCancellationReason.DUPLICATE
      (sample_browser initial_state) =
      (Except.error (PaymentException.cancellationError
        (some PaymentCancellationErrorCode.OTHER)
        (some "Unsupported cancellation reason.")), sample_browser initial_state) :=
  (C4_cancel_preconditions Stet140Config sample_env
    PaymentCancellationReason.DUPLICATE (sample_browser initial_state)).1 (by decide)

/-- C3 counterexample: an operation that always fails with HTTP 401 — a
stale-token-class status per the claim — is propagated with zero token
refreshes, not retried once. -/
theorem C3_counterexample :
    create_and_validate_retry Stet140Config (fun _ => Except.error 401)
      false 0 0 = (Except.error 401, 0) ∧ (0 : Nat) ≠ 1 := by
  refine ⟨?_, by decide⟩
  rw [create_and_validate_retry]
  simp [should_retry_with_new_token]

/-- C3 (amended): on an HTTP 403 rejection with the new-token flag unset
and a pre-step configured, exactly one token refresh happens and a
persistent 403 then propagates; with the flag already set, any failure
propagates with no refresh, so the retry recursion always stops after at
most one refresh. -/
theorem C3_retry_bound (cfg : BrowserConfig) (op : Nat → Except Nat Unit)
    (hpre : cfg.PRE_STEP_TYPE ≠ PreStepType.NONE)
    (h403 : ∀ n, op n = Except.error 403) :
    create_and_validate_retry cfg op false 0 0 = (Except.error 403, 1) ∧
    (∀ s a r, op a = Except.error s →
      create_and_validate_retry cfg op true a r = (Except.error s, r)) := by
  have hminted : ∀ s a r, op a = Except.error s →
      create_and_validate_retry cfg op true a r = (Except.error s, r) := by
    intro s a r h
    rw [create_and_validate_retry, h]
    simp [should_retry_with_new_token]
  refine ⟨?_, hminted⟩
  have hretry : should_retry_with_new_token cfg false 403 = true := by
    simp [should_retry_with_new_token, hpre]
  have h1 : create_and_validate_retry cfg op false 0 0 =
      create_and_validate_retry cfg op true 1 1 := by
    rw [create_and_validate_retry, h403 0]
    simp [hretry]
  rw [h1, hminted 403 1 1 (h403 1)]

/-- C3 witness: with the base configuration and a bank that always answers
403, the retry loop refreshes the token once and then propagates. -/
theorem C3_retry_bound_witness :
    create_and_validate_retry Stet140Config (fun _ => Except.error 403)
      false 0 0 = (Except.error 403, 1) :=
  (C3_retry_bound Stet140Config (fun _ => Except.error 403)
    (by decide) (fun _ => rfl)).1

/-- C7: in a redirect resume with no confirmation instruction and an
available callback URL, a missing OAuth `code` parameter (for the OAuth
authorisation-code flows) or a missing `psuAuthenticationFactor` (for the
auth-factor flow) raises the same-interaction signal with nothing mutated,
never a validation failure — whether or not error markers are present. -/
theorem C7_missing_callback_param (cfg : BrowserConfig) (env : Env)
    (b : Browser) (ps : List (String × String)) (cr : Bool)
    (hconf : py_truthy env.confirm = false)
    (hcb : env.callback = some (CallbackUrl.url ps)) :
    ((cfg.VALIDATION_REDIRECT_FLOW = RedirectFlow.OAUTH_AUTHORISATION_CODE ∨
      cfg.VALIDATION_REDIRECT_FLOW =
        RedirectFlow.OAUTH_AUTHORISATION_CODE_WITHOUT_CONFIRMATION) →
      get_url_param ps "code" = none →
      resume_payment_validation_redirect cfg env cr b =
        (Except.error PaymentException.sameInteraction, b)) ∧
    (cfg.VALIDATION_REDIRECT_FLOW = RedirectFlow.SIMPLE_WITH_AUTH_FACTOR →
      get_url_param ps "psuAuthenticationFactor" = none →
      resume_payment_validation_redirect cfg env cr b =
        (Except.error PaymentException.sameInteraction, b)) := by
  constructor
  · intro hflow hcode
    unfold resume_payment_validation_redirect
    rw [hconf, hcb]
    simp only [Bool.false_eq_true, if_false]
    rw [if_pos hflow, hcode]
  · intro hflow hfactor
    unfold resume_payment_validation_redirect
    rw [hconf, hcb]
    have hnoauth : ¬(cfg.VALIDATION_REDIRECT_FLOW = RedirectFlow.OAUTH_AUTHORISATION_CODE ∨
        cfg.VALIDATION_REDIRECT_FLOW =
          RedirectFlow.OAUTH_AUTHORISATION_CODE_WITHOUT_CONFIRMATION) := by
      rw [hflow]; rintro (h | h) <;> exact absurd h (by decide)
    simp only [Bool.false_eq_true, if_false]
    rw [if_neg hnoauth, if_pos hflow, hfactor]

/-- C7 witness: with the STET 1.5.0 OAuth flow and a callback whose query
holds only a `state` parameter, the resume raises same-interaction and
leaves the browser untouched. -/
theorem C7_missing_callback_param_witness :
    resume_payment_validation_redirect Stet150Config
      { sample_env with callback := some (CallbackUrl.url [("state", "xyz")]) }
      false (sample_browser redirect_pending_state) =
      (Except.error PaymentException.sameInteraction,
        sample_browser redirect_pending_state) :=
  (C7_missing_callback_param Stet150Config
    { sample_env with callback := some (CallbackUrl.url [("state", "xyz")]) }
    (sample_browser redirect_pending_state) [("state", "xyz")] false
    (by decide) rfl).1 (Or.inl rfl) (by decide)

/-- C9: the status-decoding step is pure and effect-free: the full status
check is the acquisition step followed by the pure decoder — the decoder
adds no browser mutation (neither session state, nor requests, nor Payment
diagnostics) — and for a fixed raw status/reason input the decoder depends
on nothing mutable but the two session flags it reads. -/
theorem C9_decode_pure (cfg : BrowserConfig) (env : Env) (on_page : Bool)
    (b : Browser) (st₁ st₂ : PaymentBrowserState) (d : PaymentStatusData)
    (hc : st₁.validation_confirmed = st₂.validation_confirmed)
    (ha : st₁.validation_approach = st₂.validation_approach) :
    (check_current_validation_status_full cfg env on_page b).2 =
      (get_payment_status_data cfg env on_page b).2 ∧
    (check_current_validation_status_full cfg env on_page b).1 =
      check_current_validation_status cfg
        (get_payment_status_data cfg env on_page b).2.st
        (get_payment_status_data cfg env on_page b).1 ∧
    check_current_validation_status cfg st₁ d =
      check_current_validation_status cfg st₂ d := by
  refine ⟨rfl, rfl, ?_⟩
  unfold check_current_validation_status
  rw [hc, ha]

/-- C9 witness: two states differing only in PKCE verifier decode an ACSC
status identically, and the full check at a concrete input factors through
the acquisition step. -/
theorem C9_decode_pure_witness :
    check_current_validation_status Stet140Config initial_state
      { status := "ACSC", status_reason := none } =
      check_current_validation_status Stet140Config
        { initial_state with pkce_verifier := some "v" }
        { status := "ACSC", status_reason := none } :=
  (C9_decode_pure Stet140Config sample_env true (sample_browser initial_state)
    initial_state { initial_state with pkce_verifier := some "v" }
    { status := "ACSC", status_reason := none } rfl rfl).2.2

/-- C5: the tail of `create_and_validate_payment` returns normally exactly
when the post-operation status check reports the validation as finished; a
still-required confirmation or a still-pending status aborts with a fatal
assertion failure, a rejection propagates as a validation failure, and on
a normal return the session's eight validation fields are cleared. -/
theorem C5_post_operation_check (cfg : BrowserConfig) (env : Env) (b : Browser) :
    ((create_and_validate_payment_finish cfg env b).1 = Except.ok () ↔
      check_current_validation_status cfg
        (get_payment_status_data cfg env env.on_page b).2.st
        (get_payment_status_data cfg env env.on_page b).1 =
        ValidationOutcome.interactionSkipped) ∧
    ((create_and_validate_payment_finish cfg env b).1 = Except.ok () →
      (create_and_validate_payment_finish cfg env b).2.st.payment_nonce = none ∧
      (create_and_validate_payment_finish cfg env b).2.st.validation_approach =
        ValidationApproach.NONE ∧
      (create_and_validate_payment_finish cfg env b).2.st.pkce_verifier = none ∧
      (create_and_validate_payment_finish cfg env b).2.st.oauth_authorisation_code = none ∧
      (create_and_validate_payment_finish cfg env b).2.st.oauth_token_to_be_requested = false ∧
      (create_and_validate_payment_finish cfg env b).2.st.psu_auth_factor = none ∧
      (create_and_validate_payment_finish cfg env b).2.st.validation_confirmation_required = false ∧
      (create_and_validate_payment_finish cfg env b).2.st.validation_confirmed = false) ∧
    ((check_current_validation_status cfg
        (get_payment_status_data cfg env env.on_page b).2.st
        (get_payment_status_data cfg env env.on_page b).1 =
        ValidationOutcome.confirmationRequired ∨
      check_current_validation_status cfg
        (get_payment_status_data cfg env env.on_page b).2.st
        (get_payment_status_data cfg env env.on_page b).1 =
        ValidationOutcome.awaitingPSU) →
      (create_and_validate_payment_finish cfg env b).1 =
        Except.error PaymentException.assertionFailed) ∧
    (∀ c m, check_current_validation_status cfg
        (get_payment_status_data cfg env env.on_page b).2.st
        (get_payment_status_data cfg env env.on_page b).1 =
        ValidationOutcome.rejected c m →
      (create_and_validate_payment_finish cfg env b).1 =
        Except.error (PaymentException.validationError c m)) := by
  rcases hg : get_payment_status_data cfg env env.on_page b with ⟨d, b1⟩
  have hfin : create_and_validate_payment_finish cfg env b =
      match check_current_validation_status cfg b1.st d with
      | ValidationOutcome.confirmationRequired =>
        (Except.error PaymentException.assertionFailed, b1)
      | ValidationOutcome.interactionSkipped =>
        (Except.ok (), { b1 with st := reset_validation b1.st })
      | ValidationOutcome.awaitingPSU =>
        (Except.error PaymentException.assertionFailed, b1)
      | ValidationOutcome.rejected c m =>
        (Except.error (PaymentException.validationError c m), b1) := by
    unfold create_and_validate_payment_finish
    rw [hg]
  cases ho : check_current_validation_status cfg b1.st d with
  | rejected c m =>
    simp only [ho] at hfin
    simp [hfin, hg, ho]
  | awaitingPSU =>
    simp only [ho] at hfin
    simp [hfin, hg, ho]
  | confirmationRequired =>
    simp only [ho] at hfin
    simp [hfin, hg, ho]
  | interactionSkipped =>
    simp only [ho] at hfin
    simp [hfin, hg, ho, reset_validation]

/-- C5 witness: with the bank reporting ACSC the tail returns normally, and
the returned equivalence is exercised at that concrete input. -/
theorem C5_post_operation_check_witness :
    (create_and_validate_payment_finish Stet140Config
        { sample_env with bank := fun _ => { status := "ACSC", status_reason := none } }
        (sample_browser redirect_pending_state)).1 = Except.ok () ↔
      check_current_validation_status Stet140Config
        (get_payment_status_data Stet140Config
          { sample_env with bank := fun _ => { status := "ACSC", status_reason := none } }
          ({ sample_env with
            bank := fun _ => { status := "ACSC", status_reason := none } } : Env).on_page
          (sample_browser redirect_pending_state)).2.st
        (get_payment_status_data Stet140Config
          { sample_env with bank := fun _ => { status := "ACSC", status_reason := none } }
          ({ sample_env with
            bank := fun _ => { status := "ACSC", status_reason := none } } : Env).on_page
          (sample_browser redirect_pending_state)).1 =
        ValidationOutcome.interactionSkipped :=
  (C5_post_operation_check Stet140Config
    { sample_env with bank := fun _ => { status := "ACSC", status_reason := none } }
    (sample_browser redirect_pending_state)).1

/-- C2: while `first_failure_at` is set, both resume entry points leave the
browser untouched (no bank request, no state change); an error marker in an
available callback is raised immediately and replaces the frozen reason;
otherwise, inside the timeout window a same-interaction signal is raised
and after it the frozen failure; and with a timeout configured as none the
validation error handler raises immediately and never sets
`first_failure_at`. -/
theorem C2_delay_buffer (cfg : BrowserConfig) (env : Env) (b : Browser)
    (t : Nat) (hff : b.st.first_failure_at = some t)
    (hdet : cfg.UNSAFE_URL_ERROR_DETECTION = true) :
    (resume_payment_validation cfg env b).2 = b ∧
    (resume_payment_cancellation_validation cfg env b).2 = b ∧
    (∀ ps msg, env.callback = some (CallbackUrl.url ps) →
      detect_callback_error ps = some msg →
      (resume_payment_validation cfg env b).1 =
        Except.error (PaymentException.validationError none (some msg)) ∧
      (resume_payment_cancellation_validation cfg env b).1 =
        Except.error (PaymentException.cancellationError none (some msg))) ∧
    (∀ timeout, no_callback_error env →
      cfg.VALIDATION_FAILURE_CALLBACK_DETECTION_TIMEOUT = some timeout →
      env.now < t + timeout →
      (resume_payment_validation cfg env b).1 =
        Except.error PaymentException.sameInteraction) ∧
    (∀ timeout, no_callback_error env →
      cfg.VALIDATION_FAILURE_CALLBACK_DETECTION_TIMEOUT = some timeout →
      t + timeout ≤ env.now →
      ∀ c m, b.st.first_failure_validation_data = some (c, m) →
      (resume_payment_validation cfg env b).1 =
        Except.error (PaymentException.validationError c (some (py_msg_or_empty m)))) ∧
    (∀ timeout, no_callback_error env →
      cfg.CANCELLATION_FAILURE_CALLBACK_DETECTION_TIMEOUT = some timeout →
      env.now < t + timeout →
      (resume_payment_cancellation_validation cfg env b).1 =
        Except.error PaymentException.sameInteraction) ∧
    (∀ timeout, no_callback_error env →
      cfg.CANCELLATION_FAILURE_CALLBACK_DETECTION_TIMEOUT = some timeout →
      t + timeout ≤ env.now →
      ∀ c m, b.st.first_failure_cancellation_data = some (c, m) →
      (resume_payment_cancellation_validation cfg env b).1 =
        Except.error (PaymentException.cancellationError c (some (py_msg_or_empty m)))) ∧
    (∀ (b' : Browser) c m,
      cfg.VALIDATION_FAILURE_CALLBACK_DETECTION_TIMEOUT = none →
      (handle_validation_error cfg env c m b').2 = b' ∧
      ∃ c' m', (handle_validation_error cfg env c m b').1 =
        Except.error (PaymentException.validationError c' m')) := by
  have hv : resume_payment_validation cfg env b =
      (resume_validation_first_failure cfg env t b, b) := by
    unfold resume_payment_validation
    simp only [hff]
  have hcn : resume_payment_cancellation_validation cfg env b =
      (resume_cancellation_first_failure cfg env t b, b) := by
    unfold resume_payment_cancellation_validation
    simp only [hff]
  have hvad : ∀ hnc : no_callback_error env,
      resume_validation_first_failure cfg env t b =
        validation_failure_after_detect cfg env t b := by
    intro hnc
    unfold resume_validation_first_failure
    rcases hcb : env.callback with _ | cb
    · simp [hdet]
    · cases cb with
      | url ps => simp [hdet, hnc ps hcb]
      | skipped => simp [hdet]
      | emptyUrl => simp [hdet]
  have hcad : ∀ hnc : no_callback_error env,
      resume_cancellation_first_failure cfg env t b =
        cancellation_failure_after_detect cfg env t b := by
    intro hnc
    unfold resume_cancellation_first_failure
    rcases hcb : env.callback with _ | cb
    · simp [hdet]
    · cases cb with
      | url ps => simp [hdet, hnc ps hcb]
      | skipped => simp [hdet]
      | emptyUrl => simp [hdet]
  refine ⟨by rw [hv], by rw [hcn], ?_, ?_, ?_, ?_, ?_, ?_⟩
  · intro ps msg hcb hmarker
    rw [hv, hcn]
    constructor
    · unfold resume_validation_first_failure
      simp [hdet, hcb, hmarker]
    · unfold resume_cancellation_first_failure
      simp [hdet, hcb, hmarker]
  · intro timeout hnc htm hlt
    rw [hv]
    simp only [hvad hnc]
    unfold validation_failure_after_detect
    simp [hdet, htm, hlt]
  · intro timeout hnc htm hle c m hdata
    rw [hv]
    simp only [hvad hnc]
    unfold validation_failure_after_detect validation_frozen_failure
    simp [hdet, htm, Nat.not_lt.mpr hle, hdata]
  · intro timeout hnc htm hlt
    rw [hcn]
    simp only [hcad hnc]
    unfold cancellation_failure_after_detect
    simp [hdet, htm, hlt]
  · intro timeout hnc htm hle c m hdata
    rw [hcn]
    simp only [hcad hnc]
    unfold cancellation_failure_after_detect cancellation_frozen_failure
    simp [hdet, htm, Nat.not_lt.mpr hle, hdata]
  · intro b' c m htm
    unfold handle_validation_error
    by_cases happ : b'.st.validation_approach = ValidationApproach.REDIRECT
    · rcases hcb : env.callback with _ | cb
      · simp [happ, hdet, hcb, htm]
      · cases cb with
        | url ps =>
          cases hd : detect_callback_error ps with
          | none => simp [happ, hdet, hcb, hd]
          | some msg => simp [happ, hdet, hcb, hd]
        | skipped => simp [happ, hdet, hcb, htm]
        | emptyUrl => simp [happ, hdet, hcb]
    · simp [happ]

/-- C2 witness: with detection enabled, a frozen failure at time 100, no
callback, the five-minute timeout and the clock inside the window, the
resume raises same-interaction and mutates nothing. -/
theorem C2_delay_buffer_witness :
    (resume_payment_validation UnsafeDetectionConfig
      { sample_env with now := 150 }
      (sample_browser frozen_failure_state)).2 =
      sample_browser frozen_failure_state ∧
    (resume_payment_validation UnsafeDetectionConfig
      { sample_env with now := 150 }
      (sample_browser frozen_failure_state)).1 =
      Except.error PaymentException.sameInteraction :=
  ⟨(C2_delay_buffer UnsafeDetectionConfig { sample_env with now := 150 }
      (sample_browser frozen_failure_state) 100 rfl rfl).1,
   (C2_delay_buffer UnsafeDetectionConfig { sample_env with now := 150 }
      (sample_browser frozen_failure_state) 100 rfl rfl).2.2.2.1 300
      (fun ps h => by simp [sample_env] at h) rfl (by decide)⟩

/-- C6: past the up-front precondition checks of `cancel_payment`, every
escaping exception that is not a browser-interaction signal leaves the
session with its validation fields reset, while interaction signals
(redirect, same-interaction, confirmation-required, interaction-skipped)
propagate with the flow's state untouched; the classification of each
exception constructor is pinned down explicitly. -/
theorem C6_cancel_exception_reset (cfg : BrowserConfig) (env : Env)
    (reason : PaymentCancellationReason) (b : Browser) (sr : String)
    (hsr : lookup_cancellation_reason cfg reason = some sr)
    (hp : ¬(b.st.payment_information_id = none ∨
      b.st.payment_creation_date = none ∨ b.st.payment_instruction_ids = none)) :
    (∀ e b2,
      cancel_payment_flow cfg env
        (check_pre_step cfg env { b with st := reset_oauth_token b.st }) =
        (Except.error e, b2) →
      (is_browser_interaction e = true →
        cancel_payment cfg env reason b = (Except.error e, b2)) ∧
      (is_browser_interaction e = false →
        cancel_payment cfg env reason b =
          (Except.error e, { b2 with st := reset_validation b2.st }) ∧
        (cancel_payment cfg env reason b).2.st.payment_nonce = none ∧
        (cancel_payment cfg env reason b).2.st.validation_approach =
          ValidationApproach.NONE ∧
        (cancel_payment cfg env reason b).2.st.pkce_verifier = none ∧
        (cancel_payment cfg env reason b).2.st.oauth_authorisation_code = none ∧
        (cancel_payment cfg env reason b).2.st.oauth_token_to_be_requested = false ∧
        (cancel_payment cfg env reason b).2.st.psu_auth_factor = none ∧
        (cancel_payment cfg env reason b).2.st.validation_confirmation_required = false ∧
        (cancel_payment cfg env reason b).2.st.validation_confirmed = false)) ∧
    (∀ cs, is_browser_interaction (PaymentException.redirect cs) = true) ∧
    is_browser_interaction PaymentException.sameInteraction = true ∧
    is_browser_interaction PaymentException.confirmationRequired = true ∧
    is_browser_interaction PaymentException.interactionSkipped = true ∧
    (∀ c m, is_browser_interaction (PaymentException.validationError c m) = false) ∧
    (∀ c m, is_browser_interaction (PaymentException.cancellationError c m) = false) ∧
    is_browser_interaction PaymentException.assertionFailed = false ∧
    is_browser_interaction PaymentException.notImplemented = false := by
  have hcore : ∀ e b2,
      cancel_payment_flow cfg env
        (check_pre_step cfg env { b with st := reset_oauth_token b.st }) =
        (Except.error e, b2) →
      cancel_payment cfg env reason b =
        (Except.error e,
          if is_browser_interaction e then b2
          else { b2 with st := reset_validation b2.st }) := by
    intro e b2 hfl
    unfold cancel_payment
    simp only [hsr, if_neg hp, hfl]
    by_cases hi : is_browser_interaction e <;> simp [hi]
  refine ⟨?_, fun cs => rfl, rfl, rfl, rfl, fun c m => rfl, fun c m => rfl, rfl, rfl⟩
  intro e b2 hfl
  constructor
  · intro hi
    rw [hcore e b2 hfl, if_pos hi]
  · intro hi
    have h2 := hcore e b2 hfl
    rw [if_neg (by simp [hi])] at h2
    exact ⟨h2, by simp [h2, reset_validation], by simp [h2, reset_validation],
      by simp [h2, reset_validation], by simp [h2, reset_validation],
      by simp [h2, reset_validation], by simp [h2, reset_validation],
      by simp [h2, reset_validation], by simp [h2, reset_validation]⟩

/-- C6 witness: a cancellation whose final status check finds the payment
still pending aborts with the fatal assertion failure, and the session's
validation fields are indeed reset on the way out. -/
theorem C6_cancel_exception_reset_witness :
    cancel_payment Stet140Config sample_env
      PaymentCancellationReason.ORDERED_BY_PSU
      (sample_browser cancellable_state) =
      (Except.error PaymentException.assertionFailed,
        { (cancel_payment_flow Stet140Config sample_env
            (check_pre_step Stet140Config sample_env
              { sample_browser cancellable_state with
                st := reset_oauth_token cancellable_state })).2 with
          st := reset_validation
            (cancel_payment_flow Stet140Config sample_env
              (check_pre_step Stet140Config sample_env
                { sample_browser cancellable_state with
                  st := reset_oauth_token cancellable_state })).2.st }) ∧
    (cancel_payment Stet140Config sample_env
      PaymentCancellationReason.ORDERED_BY_PSU
      (sample_browser cancellable_state)).2.st.payment_nonce = none :=
  have h := (C6_cancel_exception_reset Stet140Config sample_env
    PaymentCancellationReason.ORDERED_BY_PSU (sample_browser cancellable_state)
    "DS02" rfl (by decide)).1 PaymentException.assertionFailed
    (cancel_payment_flow Stet140Config sample_env
      (check_pre_step Stet140Config sample_env
        { sample_browser cancellable_state with
          st := reset_oauth_token cancellable_state })).2 rfl
  ⟨(h.2 rfl).1, (h.2 rfl).2.1⟩

/-- C8 counterexample: with no pre-step token in the session, a single
`check_payment_during_creation` call mints one and stores it in Session
State — the claim that repeated checks never mutate any Session State field
fails at this input. -/
theorem C8_counterexample :
    (check_payment_during_creation Stet140Config sample_env true
      (sample_browser initial_state)).2.st.oauth_token = some "freshtoken" ∧
    initial_state.oauth_token = none ∧
    some "freshtoken" ≠ (none : Option String) := by
  refine ⟨rfl, rfl, by decide⟩

/-- C8 (amended): provided the pre-step token is present and unexpired,
`check_payment_during_creation` leaves every Session State field unchanged
while the bank keeps answering the same status, and a repeated call
produces the same interaction signal as the first. -/
theorem C8_check_idempotent (cfg : BrowserConfig) (env : Env) (b : Browser)
    (tok : String) (d : PaymentStatusData)
    (htok : b.st.oauth_token = some tok)
    (hexp : ∀ e, b.st.oauth_token_expires_at = some e → env.now < e)
    (hbank : ∀ i, env.bank i = d) :
    (check_payment_during_creation cfg env true b).2.st = b.st ∧
    (check_payment_during_creation cfg env true
        (check_payment_during_creation cfg env true b).2).1 =
      (check_payment_during_creation cfg env true b).1 := by
  have hco : ∀ b' : Browser, b'.st = b.st → check_oauth_token env b' = b' := by
    intro b' hb
    unfold check_oauth_token
    rw [hb, htok]
    cases hE : b.st.oauth_token_expires_at with
    | none => rfl
    | some e =>
      have hlt := hexp e hE
      simp [is_token_expired, Nat.not_le.mpr hlt]
  have hpre : ∀ b' : Browser, b'.st = b.st → check_pre_step cfg env b' = b' := by
    intro b' hb
    unfold check_pre_step
    simp only [hco b' hb, hb, htok]
  have hget : ∀ b' : Browser, b'.st = b.st →
      (get_payment_status_data cfg env env.on_page b').1 = d ∧
      (get_payment_status_data cfg env env.on_page b').2.st = b.st := by
    intro b' hb
    unfold get_payment_status_data
    cases hop : env.on_page with
    | true => simp [hop, hbank, hb]
    | false => simp [hop, hpre b' hb, hbank, hb]
  have hrun : ∀ b' : Browser, b'.st = b.st →
      (check_payment_during_creation cfg env true b').2.st = b.st ∧
      (check_payment_during_creation cfg env true b').1 =
        (match check_current_validation_status cfg b.st d with
         | ValidationOutcome.confirmationRequired =>
           if is_validation_redirect_skippable cfg ∧
               !b.st.validation_confirmation_required then
             Except.error PaymentException.interactionSkipped
           else Except.ok ()
         | ValidationOutcome.interactionSkipped =>
           Except.error PaymentException.interactionSkipped
         | ValidationOutcome.rejected c m =>
           Except.error (PaymentException.validationError c m)
         | ValidationOutcome.awaitingPSU => Except.ok ()) := by
    intro b' hb
    rcases hG : get_payment_status_data cfg env env.on_page b' with ⟨d', b2⟩
    have h12 := hget b' hb
    rw [hG] at h12
    simp only at h12
    obtain ⟨h1, h2⟩ := h12
    unfold check_payment_during_creation
    simp only [Bool.not_true, Bool.false_eq_true, if_false, hpre b' hb, hG, h1, h2]
    cases ho : check_current_validation_status cfg b.st d <;> simp [ho, h2]
    split_ifs <;> simp [h2]
  obtain ⟨hst1, hsig1⟩ := hrun b rfl
  obtain ⟨_, hsig2⟩ := hrun (check_payment_during_creation cfg env true b).2 hst1
  exact ⟨hst1, by rw [hsig1, hsig2]⟩

/-- C8 witness: with a fresh unexpired token and a bank steadily answering
PDNG, the check mutates nothing and a second call yields the same signal. -/
theorem C8_check_idempotent_witness :
    (check_payment_during_creation Stet140Config sample_env true
      (sample_browser fresh_token_state)).2.st = fresh_token_state ∧
    (check_payment_during_creation Stet140Config sample_env true
        (check_payment_during_creation Stet140Config sample_env true
          (sample_browser fresh_token_state)).2).1 =
      (check_payment_during_creation Stet140Config sample_env true
        (sample_browser fresh_token_state)).1 :=
  C8_check_idempotent Stet140Config sample_env (sample_browser fresh_token_state)
    "tok0" { status := "PDNG", status_reason := none } rfl
    (fun e he => by
      rw [show (sample_browser fresh_token_state).st.oauth_token_expires_at =
        some 5000 from rfl] at he
      injection he with h
      rw [← h]
      decide)
    (fun _ => rfl)

end StetPIS
